import Mathlib

/-!
Verification development for the SentryCircle Cloudflare worker
(`cloudflare-worker/index.js`).  The worker's token service (`generateJWT`,
`verifyJWT`), the auth handlers (`handleRegister`, `handleLogin`,
`handleRefresh`) and the resource handlers (`handleLocationUpdate`,
`handleLocationRetrieval`, `handleCommandCreation`, `handleFamilyUpdate`,
`handleChildRetrieval`) are shallowly embedded below.  JavaScript strings are
Lean `String`s, byte arrays are `List Nat`, the KV store is a record of typed
partial maps, and `Date.now()` / `crypto.randomUUID()` / the HMAC primitive
are passed in explicitly, so every definition is a pure, executable function.
-/

set_option maxRecDepth 8000

namespace SentryCircle

/-! ## Base64: the JS `btoa` / `atob` pair (standard alphabet, `=` padding) -/

/-- Alphabet used by `btoa`/`atob`: the STANDARD base64 alphabet
(`A-Z a-z 0-9 + /`), not the base64url one. -/
def b64alphabet : List Char :=
  "ABCDEFGHIJKLMNOPQRSTUVWXYZabcdefghijklmnopqrstuvwxyz0123456789+/".data

/-- Character for a 6-bit value. -/
def b64char (n : Nat) : Char := b64alphabet.getD n 'A'

/-- Inverse of `b64char`: position of a character in the standard alphabet. -/
def b64val (c : Char) : Option Nat :=
  b64alphabet.indexOf? c

/-- Core of `btoa`: encode a byte list, three bytes to four characters, with
`=` padding on a final partial group. -/
def btoaChars : List Nat → List Char
  | [] => []
  | [a] => [b64char (a / 4), b64char (a % 4 * 16), '=', '=']
  | [a, b] => [b64char (a / 4), b64char (a % 4 * 16 + b / 16),
      b64char (b % 16 * 4), '=']
  | a :: b :: c :: rest =>
      b64char (a / 4) :: b64char (a % 4 * 16 + b / 16) ::
        b64char (b % 16 * 4 + c / 64) :: b64char (c % 64) :: btoaChars rest

/-- JS `btoa` on a byte list (the source always feeds it a binary string built
with `String.fromCharCode`, i.e. exactly a byte list). -/
def btoaBytes (bs : List Nat) : String := String.mk (btoaChars bs)

/-- JS `btoa` on an ASCII string: encode its character codes. -/
def btoa (s : String) : String := btoaBytes (s.data.map Char.toNat)

/-- Core of `atob`: decode groups of four characters; a final group of two or
three characters (forgiving base64, padding already stripped) yields one or
two bytes; a final group of one character is an error. -/
def atobCore : List Char → Option (List Nat)
  | [] => some []
  | [c1, c2] => do
      let v1 ← b64val c1
      let v2 ← b64val c2
      some [v1 * 4 + v2 / 16]
  | [c1, c2, c3] => do
      let v1 ← b64val c1
      let v2 ← b64val c2
      let v3 ← b64val c3
      some [v1 * 4 + v2 / 16, v2 % 16 * 16 + v3 / 4]
  | c1 :: c2 :: c3 :: c4 :: rest => do
      let v1 ← b64val c1
      let v2 ← b64val c2
      let v3 ← b64val c3
      let v4 ← b64val c4
      let tail ← atobCore rest
      some ((v1 * 4 + v2 / 16) :: (v2 % 16 * 16 + v3 / 4) :: (v3 % 4 * 64 + v4) :: tail)
  | [_] => none

/-- Strip the `=` padding that forgiving base64 allows: one or two trailing
`=` when the length is a multiple of four. -/
def b64stripPad (cs : List Char) : List Char :=
  if cs.length % 4 = 0 then
    match cs.reverse with
    | '=' :: '=' :: rest => rest.reverse
    | '=' :: rest => rest.reverse
    | _ => cs
  else cs

/-- JS `atob`, returning the decoded bytes (`none` models the
`InvalidCharacterError` it throws on malformed input). -/
def atobBytes (s : String) : Option (List Nat) :=
  atobCore (b64stripPad s.data)

/-- JS `atob` as a binary string (each byte one character). -/
def atobStr (s : String) : Option String :=
  (atobBytes s).map (fun bs => String.mk (bs.map Char.ofNat))

/-! ## The JSON payload codec

`generateJWT` serialises the object `{...payload, iat, exp}` with
`JSON.stringify`; `verifyJWT` recovers it with `JSON.parse`.  The claims
objects this worker ever signs are `{userId, email, role}` (registration,
login and refresh all pass exactly those fields), so the payload record and
its canonical serialisation are embedded concretely. -/

/-- Claims object handed to `generateJWT` (`{userId, email, role}`, the shape
produced by `handleRegister`, `handleLogin` and `handleRefresh`). -/
structure Claims where
  userId : String
  email : String
  role : String
deriving DecidableEq, Repr

/-- Token payload: the claims merged with the numeric `iat`/`exp` fields. -/
structure Payload where
  userId : String
  email : String
  role : String
  iat : Int
  exp : Int
deriving DecidableEq, Repr

/-- Lower-case hex digit. -/
def hexDig (n : Nat) : Char :=
  "0123456789abcdef".data.getD n '0'

/-- JSON escaping of one character, as `JSON.stringify` performs it. -/
def jsonEscChar (c : Char) : List Char :=
  if c = '"' then ['\\', '"']
  else if c = '\\' then ['\\', '\\']
  else if c = Char.ofNat 8 then ['\\', 'b']
  else if c = Char.ofNat 9 then ['\\', 't']
  else if c = Char.ofNat 10 then ['\\', 'n']
  else if c = Char.ofNat 12 then ['\\', 'f']
  else if c = Char.ofNat 13 then ['\\', 'r']
  else if c.toNat < 32 then
    ['\\', 'u', '0', '0', hexDig (c.toNat / 16), hexDig (c.toNat % 16)]
  else [c]

/-- JSON string literal for `s`, quotes included. -/
def jsonQuote (s : String) : String :=
  String.mk ('"' :: s.data.flatMap jsonEscChar ++ ['"'])

/-- The JSON text `JSON.stringify` produces for the token payload.  Key order
is the object-literal insertion order of `index.js` line 23:
userId, email, role, iat, exp. -/
def stringifyPayload (p : Payload) : String :=
  "\x7b\"userId\":" ++ jsonQuote p.userId ++
    ",\"email\":" ++ jsonQuote p.email ++
    ",\"role\":" ++ jsonQuote p.role ++
    ",\"iat\":" ++ toString p.iat ++
    ",\"exp\":" ++ toString p.exp ++ "\x7d"

/-- The header JSON: `JSON.stringify({alg:'HS256', typ:'JWT'})`. -/
def headerJSON : String := "\x7b\"alg\":\"HS256\",\"typ\":\"JWT\"\x7d"

/-- Value of a lower- or upper-case hex digit. -/
def hexVal (c : Char) : Option Nat :=
  "0123456789abcdef".data.indexOf? c

/-- Read the body of a JSON string literal (opening quote already consumed),
undoing the escapes of `jsonEscChar`; returns the string and the rest of the
input.  A raw control character is an error, as in `JSON.parse`. -/
def readJsonStringBody (acc : List Char) : List Char → Option (String × List Char)
  | '"' :: rest => some (String.mk acc.reverse, rest)
  | '\\' :: '"' :: rest => readJsonStringBody ('"' :: acc) rest
  | '\\' :: '\\' :: rest => readJsonStringBody ('\\' :: acc) rest
  | '\\' :: '/' :: rest => readJsonStringBody ('/' :: acc) rest
  | '\\' :: 'b' :: rest => readJsonStringBody (Char.ofNat 8 :: acc) rest
  | '\\' :: 't' :: rest => readJsonStringBody (Char.ofNat 9 :: acc) rest
  | '\\' :: 'n' :: rest => readJsonStringBody (Char.ofNat 10 :: acc) rest
  | '\\' :: 'f' :: rest => readJsonStringBody (Char.ofNat 12 :: acc) rest
  | '\\' :: 'r' :: rest => readJsonStringBody (Char.ofNat 13 :: acc) rest
  | '\\' :: 'u' :: h1 :: h2 :: h3 :: h4 :: rest => do
      let v1 ← hexVal h1
      let v2 ← hexVal h2
      let v3 ← hexVal h3
      let v4 ← hexVal h4
      readJsonStringBody (Char.ofNat (v1 * 4096 + v2 * 256 + v3 * 16 + v4) :: acc) rest
  | c :: rest =>
      if c = '\\' then none
      else if c.toNat < 32 then none
      else readJsonStringBody (c :: acc) rest
  | [] => none

/-- Read decimal digits into a natural number; fails on zero digits. -/
def readDigits (acc : Nat) (seen : Bool) : List Char → Option (Nat × List Char)
  | c :: rest =>
      if c.isDigit then readDigits (acc * 10 + (c.toNat - 48)) true rest
      else if seen then some (acc, c :: rest) else none
  | [] => if seen then some (acc, []) else none

/-- Read a JSON integer (optional minus sign, then digits). -/
def readInt : List Char → Option (Int × List Char)
  | '-' :: rest => (readDigits 0 false rest).map (fun r => (-(r.1 : Int), r.2))
  | cs => (readDigits 0 false cs).map (fun r => ((r.1 : Int), r.2))

/-- Drop an expected literal text from the front of the input. -/
def stripLead (lit : List Char) (cs : List Char) : Option (List Char) :=
  match lit, cs with
  | [], rest => some rest
  | l :: ls, c :: rest => if l = c then stripLead ls rest else none
  | _ :: _, [] => none

/-- Parse the canonical payload JSON back into a `Payload` (the shape of
`JSON.parse` results on the payloads this worker signs; anything else is
rejected as malformed). -/
def parsePayload (s : String) : Option Payload := do
  let r0 ← stripLead "\x7b\"userId\":\"".data s.data
  let (userId, r1) ← readJsonStringBody [] r0
  let r2 ← stripLead ",\"email\":\"".data r1
  let (email, r3) ← readJsonStringBody [] r2
  let r4 ← stripLead ",\"role\":\"".data r3
  let (role, r5) ← readJsonStringBody [] r4
  let r6 ← stripLead ",\"iat\":".data r5
  let (iat, r7) ← readInt r6
  let r8 ← stripLead ",\"exp\":".data r7
  let (exp, r9) ← readInt r8
  let r10 ← stripLead "\x7d".data r9
  if r10 = [] then some ⟨userId, email, role, iat, exp⟩ else none

/-! ## Token service: `generateJWT` and `verifyJWT`

The HMAC-SHA256 primitive (`crypto.subtle.sign`/`verify` keyed with
`JWT_SECRET`, which is bound outside this file) is passed in as an abstract
function `hmac : String → List Nat` from the signed text to the signature
bytes; `crypto.subtle.verify` succeeds exactly when the presented bytes equal
the recomputed HMAC.  `Date.now() / 1000` is the explicit `now` argument. -/

/-- Result kinds of `verifyJWT` (`reason` strings of `index.js` 42-68). -/
inductive VerifyError where
  | invalidFormat
  | expired
  | invalidSignature
deriving DecidableEq, Repr

/-- The `reason` string the worker attaches to each failure. -/
def VerifyError.reason : VerifyError → String
  | .invalidFormat => "Invalid token format"
  | .expired => "Token expired"
  | .invalidSignature => "Invalid signature"

/-- Bytes that `new Uint8Array(x)` yields when `x` is the pending Promise
returned by `crypto.subtle.sign`: `generateJWT` (line 32) does not `await`
the call, a Promise is not iterable and has no `length` property, so the
typed array is empty whatever the HMAC would have been. -/
def unawaited (_bytes : List Nat) : List Nat := []

/-- Seconds of `'7d'`. -/
def sevenDays : Int := 7 * 24 * 60 * 60

/-- The `generateJWT` helper (`index.js` 18-39).  `expiresIn` is `none` for
the default `'7d'` argument and `some n` for a numeric ttl (the
`parseInt(expiresIn)` branch of line 21). -/
def generateJWT (hmac : String → List Nat) (now : Int) (payload : Claims)
    (expiresIn : Option Int) : String :=
  let exp : Int := now + (match expiresIn with | none => sevenDays | some n => n)
  let tokenPayload : Payload :=
    ⟨payload.userId, payload.email, payload.role, now, exp⟩
  let base64Header := btoa headerJSON
  let base64Payload := btoa (stringifyPayload tokenPayload)
  let signature := unawaited (hmac (base64Header ++ "." ++ base64Payload))
  base64Header ++ "." ++ base64Payload ++ "." ++ btoaBytes signature

/-- JS `String.prototype.split('.')` on the character list: split at every
dot, keeping empty pieces, with `[""]` for the empty string. -/
def splitDots : List Char → List (List Char)
  | [] => [[]]
  | '.' :: rest => [] :: splitDots rest
  | c :: rest =>
      match splitDots rest with
      | [] => [[c]]
      | p :: ps => (c :: p) :: ps

/-- `token.split('.')` as a list of strings. -/
def splitOnDots (s : String) : List String :=
  (splitDots s.data).map String.mk

/-- Template-literal / implicit coercion of a possibly-`undefined` segment:
destructuring a short array leaves the variable `undefined`, and JS functions
such as `atob` coerce it to the string `"undefined"`. -/
def jsStr (x : Option String) : String := x.getD "undefined"

/-- Body of `verifyJWT` after the split (`index.js` 44-67), acting on the
segment list.  Steps in source order: decode and parse the payload segment
(any throw is caught as `Invalid token format`), reject `exp <= now` as
`Token expired`, decode the signature segment, then compare it with the
recomputed HMAC of `header + "." + payload`. -/
def verifyParts (hmac : String → List Nat) (now : Int)
    (parts : List String) : Except VerifyError Payload :=
  match atobStr (jsStr (parts.get? 1)) with
  | none => .error .invalidFormat
  | some payloadText =>
    match parsePayload payloadText with
    | none => .error .invalidFormat
    | some payload =>
      if payload.exp ≤ now then .error .expired
      else
        match atobBytes (jsStr (parts.get? 2)) with
        | none => .error .invalidFormat
        | some sigBytes =>
          if sigBytes = hmac (jsStr (parts.get? 0) ++ "." ++ jsStr (parts.get? 1)) then
            .ok payload
          else .error .invalidSignature

/-- The `verifyJWT` helper (`index.js` 42-68). -/
def verifyJWT (hmac : String → List Nat) (now : Int)
    (token : String) : Except VerifyError Payload :=
  verifyParts hmac now (splitOnDots token)

/-! ## Data model and KV store

Records are stored as JSON under the key patterns `user:<email>`,
`userId:<id>`, `device:<id>`, `child:<id>`, `family:<id>`,
`currentLocation:<deviceId>`, `locationHistory:<deviceId>`,
`command:<deviceId>:<commandId>`, `commands:<deviceId>`,
`userFamilies:<userId>`.  The store is embedded as one typed partial map per
key pattern; `get` returning `null` is `none`.  User records are kept as
field lists (`String × JVal` pairs in object order) because the claims about
them concern the presence and absence of fields. -/

/-- JSON-ish field value for user records. -/
inductive JVal where
  | s (v : String)
  | n (v : Int)
deriving DecidableEq, Repr

/-- Object as an ordered field list, the shape `JSON.parse` gives back. -/
def JObj : Type := List (String × JVal)

instance : DecidableEq JObj := inferInstanceAs (DecidableEq (List (String × JVal)))

instance : Repr JObj := inferInstanceAs (Repr (List (String × JVal)))

/-- First value bound to a key in an object. -/
def JObj.find (o : JObj) (k : String) : Option JVal :=
  (o.filter (fun kv => kv.1 = k)).head?.map Prod.snd

/-- String field access with JS `undefined` coercion for a missing or
non-string field. -/
def JObj.getStr (o : JObj) (k : String) : String :=
  match o.find k with
  | some (.s v) => v
  | _ => "undefined"

/-- Device record (`handleDeviceRegistration`, `index.js` 1388-1397). -/
structure Device where
  id : String
  name : String
  type : String
  childId : String
  userId : String
  status : String
  createdAt : Int
  updatedAt : Int
deriving DecidableEq, Repr

/-- Child record (`handleChildCreation`, `index.js` 1140-1149); `userId` is
the optional link to a user account (`null` when absent). -/
structure Child where
  id : String
  name : String
  familyId : String
  userId : Option String
  devices : List String
  createdAt : Int
  createdBy : String
  updatedAt : Int
deriving DecidableEq, Repr

/-- Family record (`handleFamilyCreation`, `index.js` 908-916). -/
structure Family where
  id : String
  name : String
  guardians : List String
  children : List String
  createdAt : Int
  createdBy : String
  updatedAt : Int
deriving DecidableEq, Repr

/-- Location sample stored by `handleLocationUpdate` (`index.js` 414-419);
`location` is kept opaque (the worker never inspects it). -/
structure LocationData where
  deviceId : String
  location : String
  timestamp : Int
  batteryLevel : Int
deriving DecidableEq, Repr

/-- Command record (`handleCommandCreation`, `index.js` 639-648); `data` is
kept opaque. -/
structure Command where
  id : String
  deviceId : String
  type : String
  data : String
  status : String
  createdAt : Int
  createdBy : String
  updatedAt : Int
deriving DecidableEq, Repr

/-- The `SENTRYCIRCLE_KV` namespace, one typed partial map per key pattern. -/
structure Store where
  users : String → Option JObj
  userIds : String → Option String
  devices : String → Option Device
  childs : String → Option Child
  families : String → Option Family
  currentLocations : String → Option LocationData
  locationHistories : String → Option (List LocationData)
  commandEntries : String × String → Option Command
  commandLists : String → Option (List String)
  userFamilies : String → Option (List String)

/-- Pointwise update of a string-keyed partial map. -/
def upd {α : Type} (m : String → Option α) (k : String) (v : α) :
    String → Option α :=
  fun q => if q = k then some v else m q

/-- Update of the command map at a `(deviceId, commandId)` pair. -/
def updPair {α : Type} (m : String × String → Option α) (k : String × String)
    (v : α) : String × String → Option α :=
  fun q => if q = k then some v else m q

/-- HTTP-level outcome of a handler: a success body, or an error status with
the worker's message. -/
inductive HResp (α : Type) where
  | ok (body : α)
  | err (status : Nat) (msg : String)
deriving DecidableEq, Repr

/-! ## Handlers

Each handler is the body of the corresponding `index.js` function, with
`request.json()` already parsed into a typed body, `crypto.randomUUID()`,
`Date.now()` (milliseconds) and the SHA-256 hex digest passed in explicitly.
Handlers that `put` return the updated store alongside the response; every
`put` happens after all error exits, so error responses leave the store as it
was.  JS truthiness of a missing or empty string field is modelled by `""`,
of a missing numeric field by `none` or `0` (both falsy). -/

/-- JS `x || dflt` on an optional number (`0` is falsy). -/
def jsOrNum (x : Option Int) (dflt : Int) : Int :=
  match x with
  | some v => if v ≠ 0 then v else dflt
  | none => dflt

/-- JS `x || dflt` on an optional opaque value (`''` is falsy). -/
def jsOrVal (x : Option String) (dflt : String) : String :=
  match x with
  | some v => if v ≠ "" then v else dflt
  | none => dflt

/-- Body of a successful auth response: the user object (passwordHash
removed by rest-destructuring) and the signed token. -/
structure AuthResponse where
  user : JObj
  token : String
deriving DecidableEq, Repr

/-- Registration body. -/
structure RegisterBody where
  email : String
  password : String
  name : String
  role : String
deriving DecidableEq, Repr

/-- The `handleRegister` function (`index.js` 130-191). -/
def handleRegister (sha256hex : String → String) (uuid : String)
    (hmac : String → List Nat) (now nowMs : Int) (store : Store)
    (body : RegisterBody) : HResp AuthResponse × Store :=
  if body.email = "" ∨ body.password = "" ∨ body.name = "" ∨ body.role = "" then
    (.err 400 "Missing required fields", store)
  else match store.users body.email with
  | some _ => (.err 409 "User already exists", store)
  | none =>
    let hashedPassword := sha256hex body.password
    let user : JObj :=
      [("id", .s uuid), ("email", .s body.email), ("name", .s body.name),
       ("role", .s body.role), ("passwordHash", .s hashedPassword),
       ("createdAt", .n nowMs)]
    let store1 := { store with users := upd store.users body.email user }
    let store2 := { store1 with userIds := upd store1.userIds uuid body.email }
    let token := generateJWT hmac now ⟨uuid, body.email, body.role⟩ none
    let userWithoutPassword := user.filter (fun kv => kv.1 ≠ "passwordHash")
    (.ok ⟨userWithoutPassword, token⟩, store2)

/-- The `handleLogin` function (`index.js` 194-247); performs no writes. -/
def handleLogin (sha256hex : String → String) (hmac : String → List Nat)
    (now : Int) (store : Store) (email password : String) :
    HResp AuthResponse :=
  if email = "" ∨ password = "" then
    .err 400 "Email and password are required"
  else match store.users email with
  | none => .err 401 "Invalid email or password"
  | some user =>
    let hashedPassword := sha256hex password
    if user.find "passwordHash" ≠ some (.s hashedPassword) then
      .err 401 "Invalid email or password"
    else
      let token := generateJWT hmac now
        ⟨user.getStr "id", email, user.getStr "role"⟩ none
      let userWithoutPassword := user.filter (fun kv => kv.1 ≠ "passwordHash")
      .ok ⟨userWithoutPassword, token⟩

/-- The `handleRefresh` function (`index.js` 282-318): verify, then issue a
fresh default-ttl token from the verified payload's userId/email/role. -/
def handleRefresh (hmac : String → List Nat) (now : Int)
    (token : String) : HResp String :=
  if token = "" then .err 400 "Token is required"
  else match verifyJWT hmac now token with
  | .error e => .err 401 e.reason
  | .ok payload =>
      .ok (generateJWT hmac now ⟨payload.userId, payload.email, payload.role⟩ none)

/-- Location-update body (`deviceId`, opaque `location`, optional
`timestamp` and `batteryLevel`). -/
structure LocationUpdateBody where
  deviceId : String
  location : String
  timestamp : Option Int
  batteryLevel : Option Int
deriving DecidableEq, Repr

/-- The `handleLocationUpdate` function (`index.js` 359-455). -/
def handleLocationUpdate (store : Store) (auth : Payload)
    (body : LocationUpdateBody) (nowMs : Int) : HResp Unit × Store :=
  if body.deviceId = "" ∨ body.location = "" then
    (.err 400 "Missing required fields", store)
  else match store.devices body.deviceId with
  | none => (.err 404 "Device not found", store)
  | some device =>
    let write : HResp Unit × Store :=
      let locationData : LocationData :=
        ⟨body.deviceId, body.location, jsOrNum body.timestamp nowMs,
         jsOrNum body.batteryLevel 100⟩
      let curMap := upd store.currentLocations body.deviceId locationData
      let store1 := { store with currentLocations := curMap }
      let history := (store.locationHistories body.deviceId).getD []
      let history1 := locationData :: history
      let history2 := if history1.length > 100 then history1.take 100 else history1
      let histMap := upd store1.locationHistories body.deviceId history2
      let store2 := { store1 with locationHistories := histMap }
      (.ok (), store2)
    if device.userId = auth.userId then write
    else match store.childs device.childId with
    | none => (.err 403 "Unauthorized", store)
    | some child =>
      match store.families child.familyId with
      | none => (.err 403 "Unauthorized", store)
      | some family =>
        if family.guardians.contains auth.userId then write
        else (.err 403 "Unauthorized", store)

/-- The `handleLocationRetrieval` function (`index.js` 458-538); performs no
writes. -/
def handleLocationRetrieval (store : Store) (deviceId : String)
    (auth : Payload) (includeHistory : Bool) :
    HResp (LocationData × Option (List LocationData)) :=
  match store.devices deviceId with
  | none => .err 404 "Device not found"
  | some device =>
    let fetch : HResp (LocationData × Option (List LocationData)) :=
      match store.currentLocations deviceId with
      | none => .err 404 "No location data available"
      | some current =>
        if includeHistory then
          .ok (current, some ((store.locationHistories deviceId).getD []))
        else .ok (current, none)
    if device.userId = auth.userId then fetch
    else match store.childs device.childId with
    | none => .err 403 "Unauthorized"
    | some child =>
      match store.families child.familyId with
      | none => .err 403 "Unauthorized"
      | some family =>
        if family.guardians.contains auth.userId then fetch
        else .err 403 "Unauthorized"

/-- Command-creation body. -/
structure CommandBody where
  deviceId : String
  type : String
  data : Option String
deriving DecidableEq, Repr

/-- The `handleCommandCreation` function (`index.js` 586-687).  Note the
access rule: unlike retrieval and location handlers there is no
device-owner short-circuit — the caller must be a guardian of the family of
the device's child. -/
def handleCommandCreation (uuid : String) (nowMs : Int) (store : Store)
    (auth : Payload) (body : CommandBody) : HResp Command × Store :=
  if body.deviceId = "" ∨ body.type = "" then
    (.err 400 "Missing required fields", store)
  else match store.devices body.deviceId with
  | none => (.err 404 "Device not found", store)
  | some device =>
    match store.childs device.childId with
    | none => (.err 403 "Unauthorized", store)
    | some child =>
      match store.families child.familyId with
      | none => (.err 403 "Unauthorized", store)
      | some family =>
        if family.guardians.contains auth.userId then
          let command : Command :=
            ⟨uuid, body.deviceId, body.type, jsOrVal body.data "\x7b\x7d",
             "pending", nowMs, auth.userId, nowMs⟩
          let entryMap := updPair store.commandEntries (body.deviceId, uuid) command
          let store1 := { store with commandEntries := entryMap }
          let commands := (store.commandLists body.deviceId).getD []
          let commands1 := uuid :: commands
          let commands2 :=
            if commands1.length > 50 then commands1.take 50 else commands1
          let listMap := upd store1.commandLists body.deviceId commands2
          let store2 := { store1 with commandLists := listMap }
          (.ok command, store2)
        else (.err 403 "Unauthorized", store)

/-- Family-update body (`name` and `guardians` both optional; a present
guardian list, even an empty one, is truthy and replaces the set). -/
structure FamilyUpdateBody where
  name : Option String
  guardians : Option (List String)
deriving DecidableEq, Repr

/-- The `handleFamilyUpdate` function (`index.js` 1007-1061).  When the
guardian list is replaced and omits the acting user, the user's id is pushed
back (lines 1038-1041). -/
def handleFamilyUpdate (store : Store) (familyId : String) (auth : Payload)
    (body : FamilyUpdateBody) (nowMs : Int) : HResp Family × Store :=
  match store.families familyId with
  | none => (.err 404 "Family not found", store)
  | some family =>
    if family.guardians.contains auth.userId then
      let fam1 :=
        match body.name with
        | some nm => if nm ≠ "" then { family with name := nm } else family
        | none => family
      let fam2 :=
        match body.guardians with
        | some gs =>
            { fam1 with guardians :=
                if gs.contains auth.userId then gs else gs ++ [auth.userId] }
        | none => fam1
      let fam3 := { fam2 with updatedAt := nowMs }
      let store1 := { store with families := upd store.families familyId fam3 }
      (.ok fam3, store1)
    else (.err 403 "Unauthorized", store)

/-- The `handleChildRetrieval` function (`index.js` 1173-1235); performs no
writes.  A dangling `familyId` is answered with 404 `Family not found`
(line 1189), before the authorization check. -/
def handleChildRetrieval (store : Store) (childId : String) (auth : Payload)
    (includeDevices : Bool) : HResp (Child × Option (List Device)) :=
  match store.childs childId with
  | none => .err 404 "Child not found"
  | some child =>
    match store.families child.familyId with
    | none => .err 404 "Family not found"
    | some family =>
      if ¬ family.guardians.contains auth.userId ∧ child.userId ≠ some auth.userId then
        .err 403 "Unauthorized"
      else if includeDevices then
        .ok (child, some (child.devices.filterMap store.devices))
      else .ok (child, none)

/-! ## Concrete fixtures

A stand-in for the keyed HMAC-SHA256 primitive (any function of the signed
text to a 32-byte digest; the real primitive never returns an empty digest),
a stand-in SHA-256 hex digest, and small stores, used to evaluate the
handlers at concrete inputs. -/

/-- Deterministic 32-byte digest standing in for HMAC-SHA256 with the
server's key. -/
def hmacEx (s : String) : List Nat :=
  (List.range 32).map (fun i => (s.length * 7 + i * 13) % 256)

/-- Stand-in for the SHA-256 hex digest of `handleRegister`/`handleLogin`. -/
def shaEx (s : String) : String := s ++ "#sha256"

/-- Store with every table empty. -/
def emptyStore : Store :=
  ⟨fun _ => none, fun _ => none, fun _ => none, fun _ => none, fun _ => none,
   fun _ => none, fun _ => none, fun _ => none, fun _ => none, fun _ => none⟩

/-- Example device `d1`, registered by user `kid1`, attached to child `c1`. -/
def devD : Device := ⟨"d1", "phone", "android", "c1", "kid1", "active", 0, 0⟩

/-- Example child `c1` of family `f1`, linked to account `kid1`. -/
def childC : Child := ⟨"c1", "Kid", "f1", some "kid1", ["d1"], 0, "g1", 0⟩

/-- Example family `f1` whose only guardian is `g1`. -/
def famF : Family := ⟨"f1", "Fam", ["g1"], ["c1"], 0, "g1", 0⟩

/-- Store with the full chain `d1 → c1 → f1` present. -/
def storeEx : Store :=
  { emptyStore with
    devices := upd emptyStore.devices "d1" devD,
    childs := upd emptyStore.childs "c1" childC,
    families := upd emptyStore.families "f1" famF }

/-- Child `c1` whose `familyId` dangles (no family record). -/
def childDangling : Child := ⟨"c1", "Kid", "fMissing", some "kid1", [], 0, "g1", 0⟩

/-- Device `d1` whose `childId` dangles (no child record). -/
def devDangling : Device :=
  ⟨"d1", "phone", "android", "cMissing", "kid1", "active", 0, 0⟩

/-- Store with a dangling device→child reference and a dangling
child→family reference, and no family records at all. -/
def storeDangling : Store :=
  { emptyStore with
    devices := upd emptyStore.devices "d1" devDangling,
    childs := upd emptyStore.childs "c1" childDangling }

/-- Verified claims of guardian `g1`. -/
def authG : Payload := ⟨"g1", "g@x.com", "guardian", 0, 9999999999⟩

/-- Verified claims of the child account `kid1` (the device owner). -/
def authKid : Payload := ⟨"kid1", "k@x.com", "child", 0, 9999999999⟩

/-- Example claims object from the spec's concrete scenario. -/
def cEx : Claims := ⟨"u1", "a@b.com", "guardian"⟩

/-- Payload of `cEx` issued at 1700000000 for 3600 seconds. -/
def pEx : Payload := ⟨"u1", "a@b.com", "guardian", 1700000000, 1700003600⟩

/-- Correctly signed token for `pEx` under `hmacEx` (what `generateJWT`
would produce had it awaited the sign call). -/
def tok3 : String :=
  btoa headerJSON ++ "." ++ btoa (stringifyPayload pEx) ++ "." ++
    btoaBytes (hmacEx (btoa headerJSON ++ "." ++ btoa (stringifyPayload pEx)))

/-- Stored user record with a password hash, for exercising login. -/
def userU : JObj :=
  [("id", .s "u9"), ("email", .s "e@x.com"), ("name", .s "N"),
   ("role", .s "guardian"), ("passwordHash", .s (shaEx "pw")),
   ("createdAt", .n 0)]

/-- Store holding only the user record `userU` under `e@x.com`. -/
def storeU : Store :=
  { emptyStore with users := upd emptyStore.users "e@x.com" userU }

/-- The base64url alphabet (RFC 4648 §5, unpadded): letters, digits,
`-` and `_`. -/
def base64urlAlphabet : List Char :=
  "ABCDEFGHIJKLMNOPQRSTUVWXYZabcdefghijklmnopqrstuvwxyz0123456789-_".data

/-- Whether every character of `s` belongs to the base64url alphabet. -/
def isBase64urlStr (s : String) : Bool :=
  s.data.all base64urlAlphabet.contains

/-! ## Theorems -/

/-- Reading back the key just written. -/
theorem upd_same {α : Type} (m : String → Option α) (k : String) (v : α) :
    upd m k v k = some v := by
  simp [upd]

/-- C1: the claim fails on the code.  `generateJWT` never awaits
`crypto.subtle.sign` (line 32), so the signature segment of every issued
token is `btoa('') = ''`; verifying immediately after issuing therefore
fails with `Invalid signature` instead of succeeding.  Evaluated at the
spec's concrete scenario (`{userId:'u1', email:'a@b.com', role:'guardian'}`,
ttl 3600, time 1700000000); the companion conjunct shows the same token
with the signature actually attached (`tok3`) verifies to exactly the
claims plus `iat`/`exp = iat + 3600`, so the missing `await` is the sole
obstacle to the claimed round trip. -/
theorem C1_issue_then_verify_rejects :
    verifyJWT hmacEx 1700000000 (generateJWT hmacEx 1700000000 cEx (some 3600)) =
      .error .invalidSignature ∧
    verifyJWT hmacEx 1700000000 tok3 = .ok pEx :=
  ⟨rfl, rfl⟩

/-- C2 counterexample: a string with four dot-separated segments on which
`verifyJWT` SUCCEEDS — `token.split('.')` destructuring silently ignores
segments beyond the third, so appending `.x` to a validly signed token does
not make verification fail, contradicting the claim that a wrong segment
count always yields the InvalidFormat error. -/
theorem C2_counterexample :
    (splitOnDots (tok3 ++ ".x")).length = 4 ∧
    verifyJWT hmacEx 1700000000 (tok3 ++ ".x") = .ok pEx :=
  ⟨rfl, rfl⟩

/-- C2 amended: `verifyJWT` never succeeds on an input with fewer than three
dot-separated segments (though the failure kind may be `Expired` rather than
`InvalidFormat` when the payload segment decodes to an expired payload), and
on an input with more than three segments it ignores the extra segments,
returning exactly the result for the first three — which can be success. -/
theorem C2_amended (hmac : String → List Nat) (now : Int) (s : String) :
    ((splitOnDots s).length < 3 → ∀ p, verifyJWT hmac now s ≠ .ok p) ∧
    (∀ a b c rest, splitOnDots s = a :: b :: c :: rest →
      verifyJWT hmac now s = verifyParts hmac now [a, b, c]) := by
  constructor
  · intro hlen p hok
    unfold verifyJWT at hok
    rcases hsp : splitOnDots s with _ | ⟨a, _ | ⟨b, _ | ⟨c, rest⟩⟩⟩ <;>
      rw [hsp] at hok
    · have h0 : verifyParts hmac now [] = .error .invalidFormat := rfl
      rw [h0] at hok
      cases hok
    · simp only [verifyParts, List.get?_cons_succ, List.get?_cons_zero,
        List.get?_nil, jsStr, Option.getD_none] at hok
      have e2 : atobStr "undefined" = none := rfl
      rw [e2] at hok
      cases hok
    · simp only [verifyParts, List.get?_cons_succ, List.get?_cons_zero,
        List.get?_nil, jsStr, Option.getD_none, Option.getD_some] at hok
      have e2 : atobBytes "undefined" = none := rfl
      rw [e2] at hok
      revert hok
      split
      · intro hok; cases hok
      · split
        · intro hok; cases hok
        · split
          · intro hok; cases hok
          · intro hok; cases hok
    · rw [hsp] at hlen
      simp at hlen
      omega
  · intro a b c rest h
    unfold verifyJWT
    rw [h]
    unfold verifyParts
    simp only [List.get?_cons_succ, List.get?_cons_zero]

/-- C2 amended, witness: the two-segment input `x.y` can never verify, and
the four-segment input `tok3 ++ ".x"` verifies exactly as its first three
segments do. -/
theorem C2_amended_witness :
    (∀ p, verifyJWT hmacEx 1700000000 "x.y" ≠ .ok p) ∧
    verifyJWT hmacEx 1700000000 (tok3 ++ ".x") =
      verifyParts hmacEx 1700000000
        [btoa headerJSON, btoa (stringifyPayload pEx),
         btoaBytes (hmacEx (btoa headerJSON ++ "." ++
           btoa (stringifyPayload pEx)))] :=
  ⟨(C2_amended hmacEx 1700000000 "x.y").1 (by decide),
   (C2_amended hmacEx 1700000000 (tok3 ++ ".x")).2 _ _ _ ["x"] (by rfl)⟩

/-- C3 counterexample: the payload segment of a token produced by
`generateJWT` at the spec's concrete scenario contains the character `=`,
which is not in the base64url alphabet — the code encodes with `btoa`
(standard base64 with padding), not base64url. -/
theorem C3_counterexample :
    isBase64urlStr
      ((splitOnDots (generateJWT hmacEx 1700000000 cEx (some 3600))).getD 1 "") =
      false ∧
    ((splitOnDots (generateJWT hmacEx 1700000000 cEx (some 3600))).getD 1
      "").data.contains '=' = true :=
  ⟨rfl, rfl⟩

/-- C3 amended: every token produced by `generateJWT` is
`base64(JSON(header)) + '.' + base64(JSON(payload)) + '.' +
base64(signatureBytes)` where the encoding is STANDARD base64 (`btoa`, with
`+`, `/` and `=` padding), not base64url; the header JSON is exactly
`{"alg":"HS256","typ":"JWT"}` (whose base64 happens to contain only
base64url-safe characters); and, because the sign call is not awaited, the
signature byte string is empty, making the third segment the empty string. -/
theorem C3_amended (hmac : String → List Nat) (now : Int) (c : Claims)
    (e : Option Int) :
    generateJWT hmac now c e =
      btoa headerJSON ++ "." ++
        btoa (stringifyPayload
          ⟨c.userId, c.email, c.role, now,
           now + (match e with | none => sevenDays | some n => n)⟩) ++ "." ++
        btoaBytes [] ∧
    btoa headerJSON = "eyJhbGciOiJIUzI1NiIsInR5cCI6IkpXVCJ9" ∧
    btoaBytes ([] : List Nat) = "" :=
  ⟨rfl, rfl, rfl⟩

/-- C4 counterexample: in `handleChildRetrieval`, a child whose `familyId`
points to no Family record is answered with the distinct error
404 `Family not found`, not with the authorization refusal
403 `Unauthorized` — contradicting the claim that a missing record along the
chain always yields Deny and never a distinct error kind. -/
theorem C4_counterexample :
    handleChildRetrieval storeDangling "c1" authG false =
      .err 404 "Family not found" ∧
    (HResp.err 404 "Family not found" :
        HResp (Child × Option (List Device))) ≠ .err 403 "Unauthorized" :=
  ⟨rfl, by decide⟩

/-- C4 amended: when the guardian chain is consulted, a missing Child or
Family record never grants access, but the error kind differs by handler:
`handleLocationRetrieval` (Device resource, reached only when the caller is
not the device owner) answers a missing Child or Family with the refusal
403 `Unauthorized`, while `handleChildRetrieval` (Child resource) answers a
missing Family with the distinct 404 `Family not found`. -/
theorem C4_amended (store : Store) (deviceId childId : String)
    (auth : Payload) (includeHistory includeDevices : Bool) :
    (∀ device, store.devices deviceId = some device →
      device.userId ≠ auth.userId →
      store.childs device.childId = none →
      handleLocationRetrieval store deviceId auth includeHistory =
        .err 403 "Unauthorized") ∧
    (∀ device child, store.devices deviceId = some device →
      device.userId ≠ auth.userId →
      store.childs device.childId = some child →
      store.families child.familyId = none →
      handleLocationRetrieval store deviceId auth includeHistory =
        .err 403 "Unauthorized") ∧
    (∀ child, store.childs childId = some child →
      store.families child.familyId = none →
      handleChildRetrieval store childId auth includeDevices =
        .err 404 "Family not found") := by
  refine ⟨fun device hdev hne hchild => ?_,
          fun device child hdev hne hchild hfam => ?_,
          fun child hchild hfam => ?_⟩
  · unfold handleLocationRetrieval
    rw [hdev]
    simp only [if_neg hne, hchild]
  · unfold handleLocationRetrieval
    rw [hdev]
    simp only [if_neg hne, hchild, hfam]
  · unfold handleChildRetrieval
    rw [hchild]
    simp only [hfam]

/-- C4 amended, witness: in a store where device `d1` has a dangling
`childId` and child `c1` has a dangling `familyId`, guardian `g1` gets
403 from location retrieval and 404 `Family not found` from child
retrieval. -/
theorem C4_amended_witness :
    handleLocationRetrieval storeDangling "d1" authG false =
      .err 403 "Unauthorized" ∧
    handleChildRetrieval storeDangling "c1" authG false =
      .err 404 "Family not found" :=
  ⟨(C4_amended storeDangling "d1" "c1" authG false false).1 devDangling rfl
      (by decide) rfl,
   (C4_amended storeDangling "d1" "c1" authG false false).2.2 childDangling rfl
      rfl⟩

/-- Membership form of `List.contains` on strings. -/
theorem contains_eq_true_iff (l : List String) (a : String) :
    l.contains a = true ↔ a ∈ l := by
  induction l with
  | nil => simp
  | cons b t ih =>
      simp only [List.contains_cons, Bool.or_eq_true, beq_iff_eq, ih,
        List.mem_cons]

/-- C5: `handleCommandCreation` never consults `device.userId`: a caller
whose userId equals the device's own userId but who is not in the guardian
set of the family resolved through the device's child is refused with 403,
and any successful command creation implies the caller is a guardian of the
device's child's family. -/
theorem C5_command_requires_guardian (uuid : String) (nowMs : Int)
    (store : Store) (auth : Payload) (body : CommandBody)
    (hd : body.deviceId ≠ "") (ht : body.type ≠ "") :
    (∀ device child family,
      store.devices body.deviceId = some device →
      store.childs device.childId = some child →
      store.families child.familyId = some family →
      device.userId = auth.userId →
      auth.userId ∉ family.guardians →
      (handleCommandCreation uuid nowMs store auth body).1 =
        .err 403 "Unauthorized") ∧
    (∀ cmd store1,
      handleCommandCreation uuid nowMs store auth body = (.ok cmd, store1) →
      ∃ device child family,
        store.devices body.deviceId = some device ∧
        store.childs device.childId = some child ∧
        store.families child.familyId = some family ∧
        auth.userId ∈ family.guardians) := by
  constructor
  · intro device child family hdev hchild hfam _ hmem
    unfold handleCommandCreation
    rw [if_neg (by simp [hd, ht])]
    simp only [hdev, hchild, hfam]
    rw [if_neg (by simp [contains_eq_true_iff, hmem])]
  · intro cmd store1 h
    unfold handleCommandCreation at h
    by_cases hval : body.deviceId = "" ∨ body.type = ""
    · rw [if_pos hval] at h
      simp at h
    · rw [if_neg hval] at h
      rcases hdev : store.devices body.deviceId with _ | device
      · simp only [hdev] at h
        simp at h
      · simp only [hdev] at h
        rcases hchild : store.childs device.childId with _ | child
        · simp only [hchild] at h
          simp at h
        · simp only [hchild] at h
          rcases hfam : store.families child.familyId with _ | family
          · simp only [hfam] at h
            simp at h
          · simp only [hfam] at h
            by_cases hg : family.guardians.contains auth.userId
            · exact ⟨device, child, family, rfl, hchild, hfam,
                (contains_eq_true_iff _ _).mp hg⟩
            · rw [if_neg hg] at h
              simp at h

/-- C5 witness: in the chain `d1 → c1 → f1` with guardian set `["g1"]`, the
device-owner token `kid1` (userId equal to the device's userId) is refused
command creation with 403, and a successful creation by `g1` resolves the
chain to a family with `g1` among the guardians. -/
theorem C5_witness :
    (handleCommandCreation "cm1" 0 storeEx authKid ⟨"d1", "lock", none⟩).1 =
      .err 403 "Unauthorized" ∧
    ∃ device child family,
      storeEx.devices "d1" = some device ∧
      storeEx.childs device.childId = some child ∧
      storeEx.families child.familyId = some family ∧
      "g1" ∈ family.guardians :=
  ⟨(C5_command_requires_guardian "cm1" 0 storeEx authKid ⟨"d1", "lock", none⟩
      (by decide) (by decide)).1 devD childC famF rfl rfl rfl rfl (by decide),
   (C5_command_requires_guardian "cm1" 7 storeEx authG ⟨"d1", "lock", none⟩
      (by decide) (by decide)).2
     ⟨"cm1", "d1", "lock", "\x7b\x7d", "pending", 7, "g1", 7⟩
     (handleCommandCreation "cm1" 7 storeEx authG ⟨"d1", "lock", none⟩).2
     (by rfl)⟩

/-- C6: `handleRefresh` surfaces exactly the verification failure (same
error kind, rendered by its `reason` string, which determines the kind) and
issues no token in that case; on a verifying token it issues a fresh
default-ttl token from the verified payload's userId, email and role. -/
theorem C6_refresh_propagates (hmac : String → List Nat) (now : Int)
    (token : String) (htok : token ≠ "") :
    (∀ e, verifyJWT hmac now token = .error e →
      handleRefresh hmac now token = .err 401 e.reason) ∧
    (∀ p, verifyJWT hmac now token = .ok p →
      handleRefresh hmac now token =
        .ok (generateJWT hmac now ⟨p.userId, p.email, p.role⟩ none)) ∧
    (∀ e1 e2 : VerifyError, e1.reason = e2.reason → e1 = e2) := by
  refine ⟨fun e he => ?_, fun p hp => ?_, fun e1 e2 h => ?_⟩
  · unfold handleRefresh
    rw [if_neg htok, he]
  · unfold handleRefresh
    rw [if_neg htok, hp]
  · cases e1 <;> cases e2 <;> first
      | rfl
      | exact absurd h (by decide)

/-- C6 witness: refreshing the correctly signed token `tok3` before its
expiry issues the fresh token for `u1`; refreshing it at its expiry instant
fails with 401 `Token expired` (the kind `verifyJWT` produced) and no
token. -/
theorem C6_witness :
    handleRefresh hmacEx 1700000000 tok3 =
      .ok (generateJWT hmacEx 1700000000 ⟨"u1", "a@b.com", "guardian"⟩ none) ∧
    handleRefresh hmacEx 1700003600 tok3 = .err 401 "Token expired" :=
  ⟨(C6_refresh_propagates hmacEx 1700000000 tok3 (by decide)).2.1 pEx rfl,
   (C6_refresh_propagates hmacEx 1700003600 tok3 (by decide)).1 .expired rfl⟩

/-- C7: the expiry boundary is inclusive — a token whose decoded payload
carries `exp` equal to the verification time is rejected as `Expired`
(`payload.exp <= now`, `index.js` line 49), before any signature check. -/
theorem C7_expiry_boundary_inclusive (hmac : String → List Nat) (now : Int)
    (token p64 txt : String) (payload : Payload)
    (h1 : (splitOnDots token).get? 1 = some p64)
    (h2 : atobStr p64 = some txt)
    (h3 : parsePayload txt = some payload)
    (h4 : payload.exp = now) :
    verifyJWT hmac now token = .error .expired := by
  unfold verifyJWT verifyParts
  simp only [h1, jsStr, Option.getD_some, h2, h3]
  rw [if_pos (le_of_eq h4)]

/-- C7 witness: a token issued with ttl 0 carries `exp = iat`; verifying it
at the very second of issuance fails with `Expired`. -/
theorem C7_witness :
    verifyJWT hmacEx 1700000000 (generateJWT hmacEx 1700000000 cEx (some 0)) =
      .error .expired :=
  C7_expiry_boundary_inclusive hmacEx 1700000000
    (generateJWT hmacEx 1700000000 cEx (some 0))
    (btoa (stringifyPayload ⟨"u1", "a@b.com", "guardian", 1700000000, 1700000000⟩))
    (stringifyPayload ⟨"u1", "a@b.com", "guardian", 1700000000, 1700000000⟩)
    ⟨"u1", "a@b.com", "guardian", 1700000000, 1700000000⟩
    (by rfl) (by rfl) (by rfl) rfl

/-- C8: after any successful family update, the acting guardian's id is in
the stored guardian set — a replacement list that omits it has the id pushed
back (`index.js` 1038-1041), and a request without a replacement list keeps
the old set, which contained the id by the access check. -/
theorem C8_acting_guardian_retained (store : Store) (familyId : String)
    (auth : Payload) (body : FamilyUpdateBody) (nowMs : Int) :
    ∀ fam store1,
      handleFamilyUpdate store familyId auth body nowMs = (.ok fam, store1) →
      auth.userId ∈ fam.guardians ∧ store1.families familyId = some fam := by
  intro fam store1 h
  unfold handleFamilyUpdate at h
  rcases hf : store.families familyId with _ | family
  · simp only [hf] at h
    simp at h
  · simp only [hf] at h
    by_cases hg : family.guardians.contains auth.userId
    · rw [if_pos hg] at h
      simp only [Prod.mk.injEq, HResp.ok.injEq] at h
      obtain ⟨hfam, hst⟩ := h
      constructor
      · rw [← hfam]
        rcases body.guardians with _ | gs
        · rcases body.name with _ | nm
          · exact (contains_eq_true_iff _ _).mp hg
          · by_cases hnm : nm ≠ "" <;>
              simp only [hnm, if_pos, if_neg, if_true, if_false, ite_not] <;>
              exact (contains_eq_true_iff _ _).mp hg
        · by_cases hmem : gs.contains auth.userId
          · simp only [hmem, if_true]
            exact (contains_eq_true_iff _ _).mp hmem
          · simp only [hmem, if_false]
            exact List.mem_append_right _ (List.mem_singleton.mpr rfl)
      · rw [← hst, ← hfam]
        simp [upd]
    · rw [if_neg hg] at h
      simp at h

/-- C8 witness: guardian `g1` replaces the guardian set of `f1` with the
empty list; the stored family nevertheless keeps `g1` as guardian. -/
theorem C8_witness :
    "g1" ∈ (Family.mk "f1" "Fam" ["g1"] ["c1"] 0 "g1" 5).guardians ∧
    (handleFamilyUpdate storeEx "f1" authG ⟨none, some []⟩ 5).2.families "f1" =
      some ⟨"f1", "Fam", ["g1"], ["c1"], 0, "g1", 5⟩ :=
  C8_acting_guardian_retained storeEx "f1" authG ⟨none, some []⟩ 5
    ⟨"f1", "Fam", ["g1"], ["c1"], 0, "g1", 5⟩
    (handleFamilyUpdate storeEx "f1" authG ⟨none, some []⟩ 5).2 (by rfl)

/-- C9: after any successful location update, the stored history for the
device has at most 100 entries and its first element is the entry for the
just-submitted update (`unshift` then `slice(0, 100)`, `index.js`
437-444). -/
theorem C9_history_bounded (store : Store) (auth : Payload)
    (body : LocationUpdateBody) (nowMs : Int) :
    ∀ store1, handleLocationUpdate store auth body nowMs = (.ok (), store1) →
      ∃ hist, store1.locationHistories body.deviceId = some hist ∧
        hist.length ≤ 100 ∧
        hist.head? = some ⟨body.deviceId, body.location,
          jsOrNum body.timestamp nowMs, jsOrNum body.batteryLevel 100⟩ := by
  intro store1 h
  unfold handleLocationUpdate at h
  by_cases hval : body.deviceId = "" ∨ body.location = ""
  · rw [if_pos hval] at h
    simp at h
  · rw [if_neg hval] at h
    rcases hdev : store.devices body.deviceId with _ | device
    · simp only [hdev] at h
      simp at h
    · simp only [hdev] at h
      have hwrite :
          ∀ hw : (HResp Unit × Store),
            hw = (let locationData : LocationData :=
                ⟨body.deviceId, body.location, jsOrNum body.timestamp nowMs,
                 jsOrNum body.batteryLevel 100⟩
              let curMap := upd store.currentLocations body.deviceId locationData
              let store1 := { store with currentLocations := curMap }
              let history := (store.locationHistories body.deviceId).getD []
              let history1 := locationData :: history
              let history2 :=
                if history1.length > 100 then history1.take 100 else history1
              let histMap := upd store1.locationHistories body.deviceId history2
              let store2 := { store1 with locationHistories := histMap }
              (.ok (), store2)) →
            hw = (.ok (), store1) →
            ∃ hist, store1.locationHistories body.deviceId = some hist ∧
              hist.length ≤ 100 ∧
              hist.head? = some ⟨body.deviceId, body.location,
                jsOrNum body.timestamp nowMs, jsOrNum body.batteryLevel 100⟩ := by
        intro hw hwdef heq
        rw [hwdef] at heq
        simp only [Prod.mk.injEq] at heq
        obtain ⟨-, hst⟩ := heq
        rw [← hst]
        refine ⟨_, upd_same _ _ _, ?_, ?_⟩
        · split
          · rw [List.length_take]
            exact Nat.min_le_left _ _
          · next hlen => omega
        · split
          · rw [show (100 : Nat) = 99 + 1 from rfl, List.take_succ_cons]
            rfl
          · rfl
      by_cases hown : device.userId = auth.userId
      · rw [if_pos hown] at h
        exact hwrite _ rfl h
      · rw [if_neg hown] at h
        rcases hchild : store.childs device.childId with _ | child
        · simp only [hchild] at h
          simp at h
        · simp only [hchild] at h
          rcases hfam : store.families child.familyId with _ | family
          · simp only [hfam] at h
            simp at h
          · simp only [hfam] at h
            by_cases hg : family.guardians.contains auth.userId
            · rw [if_pos hg] at h
              exact hwrite _ rfl h
            · rw [if_neg hg] at h
              simp at h

/-- C9 witness: the device owner `kid1` submits a location update for `d1`
against a store with no prior history; the stored history is the singleton
whose head is the submitted entry. -/
theorem C9_witness :
    ∃ hist,
      (handleLocationUpdate storeEx authKid ⟨"d1", "LOC", some 7, some 50⟩
          1000).2.locationHistories "d1" = some hist ∧
      hist.length ≤ 100 ∧
      hist.head? = some ⟨"d1", "LOC", jsOrNum (some 7) 1000,
        jsOrNum (some 50) 100⟩ :=
  C9_history_bounded storeEx authKid ⟨"d1", "LOC", some 7, some 50⟩ 1000
    (handleLocationUpdate storeEx authKid ⟨"d1", "LOC", some 7, some 50⟩
      1000).2 (by rfl)

/-- Filtering a key out and then filtering for it leaves nothing. -/
theorem filter_ne_then_eq_nil (l : List (String × JVal)) (k : String) :
    (l.filter (fun kv => kv.1 ≠ k)).filter (fun kv => kv.1 = k) = [] := by
  induction l with
  | nil => rfl
  | cons kv t ih =>
      by_cases hk : kv.1 = k
      · simp [List.filter, hk, ih]
      · simp [List.filter, hk, ih]

/-- Looking up a key in an object from which it was filtered out finds
nothing. -/
theorem find_filter_ne (l : JObj) (k : String) :
    JObj.find (l.filter (fun kv => kv.1 ≠ k)) k = none := by
  unfold JObj.find
  rw [filter_ne_then_eq_nil]
  rfl

/-- C10: successful registration and login responses carry the user object
with the `passwordHash` field removed by rest-destructuring, while the
record in the store does carry `passwordHash` (the SHA-256 hex of the
submitted password). -/
theorem C10_password_hash_hidden (sha : String → String) (uuid : String)
    (hmac : String → List Nat) (now nowMs : Int) (store : Store)
    (body : RegisterBody) (email password : String) :
    (∀ r store1,
      handleRegister sha uuid hmac now nowMs store body = (.ok r, store1) →
      r.user.find "passwordHash" = none ∧
      ∃ u, store1.users body.email = some u ∧
        u.find "passwordHash" = some (.s (sha body.password))) ∧
    (∀ r, handleLogin sha hmac now store email password = .ok r →
      r.user.find "passwordHash" = none ∧
      ∃ u, store.users email = some u ∧
        u.find "passwordHash" = some (.s (sha password))) := by
  constructor
  · intro r store1 h
    unfold handleRegister at h
    by_cases hval : body.email = "" ∨ body.password = "" ∨ body.name = "" ∨
        body.role = ""
    · rw [if_pos hval] at h
      simp at h
    · rw [if_neg hval] at h
      rcases hu : store.users body.email with _ | u
      · simp only [hu] at h
        simp only [Prod.mk.injEq, HResp.ok.injEq] at h
        obtain ⟨hr, hst⟩ := h
        constructor
        · rw [← hr]
          exact find_filter_ne _ _
        · rw [← hst]
          exact ⟨_, upd_same _ _ _, rfl⟩
      · simp only [hu] at h
        simp at h
  · intro r h
    unfold handleLogin at h
    by_cases hval : email = "" ∨ password = ""
    · rw [if_pos hval] at h
      simp at h
    · rw [if_neg hval] at h
      rcases hu : store.users email with _ | u
      · simp only [hu] at h
        simp at h
      · simp only [hu] at h
        by_cases hph : u.find "passwordHash" ≠ some (.s (sha password))
        · rw [if_pos hph] at h
          simp at h
        · rw [if_neg hph] at h
          simp only [HResp.ok.injEq] at h
          constructor
          · rw [← h]
            exact find_filter_ne _ _
          · exact ⟨u, rfl, not_ne_iff.mp hph⟩

/-- C10 witness: a concrete registration into the empty store and a login
against a stored user record; both responses lack `passwordHash`, both
stored records carry it. -/
theorem C10_witness :
    (AuthResponse.mk
        [("id", .s "uid1"), ("email", .s "e@x.com"), ("name", .s "N"),
         ("role", .s "guardian"), ("createdAt", .n 5)]
        (generateJWT hmacEx 0 ⟨"uid1", "e@x.com", "guardian"⟩
          none)).user.find "passwordHash" = none ∧
    (∃ u, (handleRegister shaEx "uid1" hmacEx 0 5 emptyStore
        ⟨"e@x.com", "pw", "N", "guardian"⟩).2.users "e@x.com" = some u ∧
      u.find "passwordHash" = some (.s (shaEx "pw"))) ∧
    (AuthResponse.mk
        [("id", .s "u9"), ("email", .s "e@x.com"), ("name", .s "N"),
         ("role", .s "guardian"), ("createdAt", .n 0)]
        (generateJWT hmacEx 3 ⟨"u9", "e@x.com", "guardian"⟩
          none)).user.find "passwordHash" = none ∧
    ∃ u, storeU.users "e@x.com" = some u ∧
      u.find "passwordHash" = some (.s (shaEx "pw")) := by
  obtain ⟨h1, h2⟩ := (C10_password_hash_hidden shaEx "uid1" hmacEx 0 5
      emptyStore ⟨"e@x.com", "pw", "N", "guardian"⟩ "e@x.com" "pw").1
    ⟨[("id", .s "uid1"), ("email", .s "e@x.com"), ("name", .s "N"),
      ("role", .s "guardian"), ("createdAt", .n 5)],
     generateJWT hmacEx 0 ⟨"uid1", "e@x.com", "guardian"⟩ none⟩
    (handleRegister shaEx "uid1" hmacEx 0 5 emptyStore
      ⟨"e@x.com", "pw", "N", "guardian"⟩).2 (by rfl)
  obtain ⟨h3, h4⟩ := (C10_password_hash_hidden shaEx "uid1" hmacEx 3 5
      storeU ⟨"e@x.com", "pw", "N", "guardian"⟩ "e@x.com" "pw").2
    ⟨[("id", .s "u9"), ("email", .s "e@x.com"), ("name", .s "N"),
      ("role", .s "guardian"), ("createdAt", .n 0)],
     generateJWT hmacEx 3 ⟨"u9", "e@x.com", "guardian"⟩ none⟩ (by rfl)
  exact ⟨h1, h2, h3, h4⟩

end SentryCircle
